import Mathlib

/-!
Verification development for the UAV ground-control-station backend
(`src/app.py`).  The Python program is shallowly embedded: Python floats are
modelled as exact rationals (`ℚ`), Python `None` as `Option.none`, dict keys
that may be absent or null as `Option` fields, exceptions as `Except`, and
the message streams consumed by the blocking `recv_match` calls as explicit
lists of already-received messages (with `none` standing for a recv timeout).
Real time is abstracted away: a timed-out wait is an input, not a clock.
-/

namespace UavSystem

/-- The Python builtin `abs` on a number. -/
def pyAbs (q : ℚ) : ℚ := if q < 0 then -q else q

/-- The Python builtin `round` on a number (round-half-to-even), as used in
`int(round(lat * 1e7))` at src/app.py:506. -/
def pyRound (q : ℚ) : ℤ :=
  if q - ⌊q⌋ < 1 / 2 then ⌊q⌋
  else if 1 / 2 < q - ⌊q⌋ then ⌊q⌋ + 1
  else if ⌊q⌋ % 2 = 0 then ⌊q⌋ else ⌊q⌋ + 1

/-- The literal `1e-7` used as coordinate tolerance (src/app.py:305, 401, 438, 850). -/
def eps : ℚ := 1 / 10 ^ 7

/-- Values of `mission_status` (src/app.py:73). -/
inductive MissionStatus
  | idle
  | starting
  | running
  | completed
  | stopped
  | error
  deriving DecidableEq

/-- Values of `mission_phase` that the program actually writes (src/app.py:74 and
the `update_mission_state` call sites). -/
inductive MissionPhase
  | uploading
  | in_progress
  | completed
  | stopped
  | upload_error
  | mode_error
  | arm_error
  | mode_auto_error
  | exception
  deriving DecidableEq

/-- The `status` field of a UAV record: `"online"` / `"offline"`. -/
inductive UavStatus
  | online
  | offline
  deriving DecidableEq

/-- A raw `.plan` mission item, as the Python dict that `parse_qgc_plan`,
`extract_lat_lon_alt` and `upload_mission_to_autopilot` read.  Every key the
code looks up is a field; `none` stands for "key absent or null" (the code
treats the two identically at every lookup it performs). -/
structure PItem where
  type : Option String := none
  command : Option Int := none
  frame : Option Int := none
  autoContinue : Option Bool := none
  params : List (Option ℚ) := []
  doJumpId : Option Int := none
  Altitude : Option ℚ := none
  x : Option ℚ := none
  y : Option ℚ := none
  z : Option ℚ := none
  lat : Option ℚ := none
  lon : Option ℚ := none
  alt : Option ℚ := none
  latitude : Option ℚ := none
  longitude : Option ℚ := none
  altitude : Option ℚ := none
  deriving DecidableEq

/-- A parsed `.plan` document: `plan_data["mission"]` with its `items` list and
optional `plannedHomePosition` (a JSON array of numbers). -/
structure Plan where
  items : List PItem := []
  plannedHomePosition : Option (List ℚ) := none
  deriving DecidableEq

/-- An element of the `items` list built by `parse_qgc_plan`
(src/app.py:350-359). -/
structure ParsedItem where
  seq : Int
  command : Int
  frame : Int
  autoContinue : Bool
  params : List (Option ℚ)
  lat : Option ℚ
  lon : Option ℚ
  alt : Option ℚ
  deriving DecidableEq

/-- The per-UAV record stored in `UAVS` (src/app.py:50-82).  Timestamps are
rationals (seconds); `last_heartbeat`/`last_mission_update` keep the
`Option` shape of the Python value. -/
structure UavRec where
  id : String
  name : String
  lat : ℚ
  lon : ℚ
  alt : ℚ
  heading : ℚ
  ground_speed : ℚ
  port : Nat
  status : UavStatus
  mission : List ParsedItem
  last_heartbeat : Option ℚ
  connected : Bool
  gps_fix : Nat
  satellites : Nat
  battery_percent : Option Int
  battery_voltage : Option ℚ
  plan_raw : Option Plan
  telemetry_enabled : Bool
  mission_status : MissionStatus
  mission_phase : Option MissionPhase
  mission_total : Nat
  mission_current_seq : Int
  mission_progress : ℚ
  last_mission_update : Option ℚ
  mission_comm_lock : Bool
  deriving DecidableEq

/-- The global state touched by `check_heartbeats`: the `UAVS` registry and the
set of ids with an open link in `MAVLINK_CONNECTIONS`. -/
structure GcsState where
  uavs : List (String × UavRec)
  links : List String
  deriving DecidableEq

/-- Fresh record inserted by `connect_to_uav` (src/app.py:50-82). -/
def initRecord (port : Nat) (now : ℚ) : UavRec :=
  { id := "uav_" ++ toString port
    name := "БВС-" ++ toString (port - 219)
    lat := 0, lon := 0, alt := 0, heading := 0, ground_speed := 0
    port := port, status := .online, mission := []
    last_heartbeat := some now, connected := true
    gps_fix := 0, satellites := 0
    battery_percent := none, battery_voltage := none
    plan_raw := none, telemetry_enabled := true
    mission_status := .idle, mission_phase := none
    mission_total := 0, mission_current_seq := -1, mission_progress := 0
    last_mission_update := none, mission_comm_lock := false }

def MAV_FRAME_GLOBAL : Int := 0

def MAV_FRAME_GLOBAL_RELATIVE_ALT : Int := 3

def MAV_MISSION_ACCEPTED : Int := 0

def TIMEOUT_OFFLINE : ℚ := 60

def COORDLESS_COMMANDS : List Int := [20, 21, 82, 177]

/-- The expression `uav.get("mission_total") or len(uav.get("mission", [])) or 0`
(src/app.py:172): Python `or` takes the first truthy value, so a zero
`mission_total` falls back to the length of the cached mission list. -/
def effectiveTotal (u : UavRec) : Nat :=
  if u.mission_total ≠ 0 then u.mission_total else u.mission.length

/-- The `MISSION_CURRENT` branch of `listen_to_uav` (src/app.py:158-187):
when the mission is stopped the message is ignored; otherwise the current
sequence number, the clamped progress and the update timestamp are written,
and reaching `total - 1` marks the mission completed. -/
def handleMissionCurrent (now : ℚ) (u : UavRec) (seq : Nat) : UavRec :=
  if u.mission_status = .stopped then u
  else
    let total := effectiveTotal u
    let u' := { u with
      mission_current_seq := (seq : Int)
      mission_progress :=
        if 0 < total then min 1 (max 0 (((seq : ℚ) + 1) / (total : ℚ))) else 0
      last_mission_update := some now }
    if 0 < total ∧ total - 1 ≤ seq then
      { u' with mission_status := .completed, mission_phase := some .completed }
    else u'

/-- The Python test `pat in s` on strings (substring containment). -/
def strContains (s pat : String) : Bool := decide (pat.toList <:+: s.toList)

/-- The `STATUSTEXT` branch of `listen_to_uav` (src/app.py:189-202): a text
containing "mission complete" or "landed" (lower-cased) marks the mission
completed unless it is already stopped. -/
def handleStatustext (now : ℚ) (u : UavRec) (text : String) : UavRec :=
  let low := text.toLower
  if (strContains low "mission complete" ∨ strContains low "landed")
      ∧ u.mission_status ≠ .stopped then
    { u with mission_status := .completed, mission_phase := some .completed
             last_mission_update := some now }
  else u

/-- Whether `check_heartbeats` considers a record stale at time `now`
(src/app.py:241-244). -/
def heartbeatStale (now : ℚ) (u : UavRec) : Bool :=
  match u.last_heartbeat with
  | none => false
  | some t => decide (TIMEOUT_OFFLINE < now - t)

/-- The body of one `check_heartbeats` visit of one record
(src/app.py:240-245): the two nested guards (`if last:` and the 60 s
comparison) are flattened into `heartbeatStale`; a stale record gets
`status = "offline"` and nothing else happens. -/
def sweepRecord (now : ℚ) (u : UavRec) : UavRec :=
  if heartbeatStale now u then { u with status := .offline } else u

/-- One sweep of the `check_heartbeats` loop over the whole registry
(src/app.py:237-246).  It walks `UAVS` only; `MAVLINK_CONNECTIONS` is never
touched. -/
def check_heartbeats_sweep (now : ℚ) (st : GcsState) : GcsState :=
  { st with uavs := st.uavs.map fun p => (p.1, sweepRecord now p.2) }

/-- The `update_mission_state` call made by `stop_mission_on_uav`
(src/app.py:762-766). -/
def stopMissionUpdate (now : ℚ) (u : UavRec) : UavRec :=
  { u with mission_status := .stopped, mission_phase := some .stopped
           last_mission_update := some now }

/-- The `update_mission_state` call made by the `start_mission` route and by
`upload_and_start_mission_for_uav` (src/app.py:884-890 and 690-696). -/
def startMissionUpdate (now : ℚ) (u : UavRec) : UavRec :=
  { u with mission_status := .starting, mission_phase := some .uploading
           mission_current_seq := -1, mission_progress := 0
           last_mission_update := some now }

/-- Result of the `start_mission` route for a registered UAV. -/
inductive StartRes
  | inProgress
  | started
  deriving DecidableEq

/-- The `start_mission` route body for a registered `uav_id`
(src/app.py:871-899): reject while `mission_status` is starting or running,
otherwise move to starting/uploading (resetting seq and progress) and spawn
`mission_runner` (the spawn is reported by the `.started` result). -/
def start_mission (now : ℚ) (u : UavRec) : StartRes × UavRec :=
  if u.mission_status = .starting ∨ u.mission_status = .running then
    (.inProgress, u)
  else
    (.started, startMissionUpdate now u)

/-- Model of `start_mission_auto` (src/app.py:607-665) with the environment abstracted
into four booleans: `armed` is the `check_armed` readback, `preModeOk` is
"the pre-arm `set_mode` step did not fail" (this also covers the case where
no pre-arm mode name is available and the step is skipped), `armOk` the
`arm_copter` result and `autoOk` the `set_mode("AUTO")` result.  Only the
record effects of the `update_mission_state` calls are modelled; the
MAVLink sends have no record effect. -/
def start_mission_auto (now : ℚ) (armed preModeOk armOk autoOk : Bool) (u : UavRec) :
    Bool × UavRec :=
  if armed = false ∧ preModeOk = false then
    (false, { u with mission_status := .error, mission_phase := some .mode_error
                     last_mission_update := some now })
  else if armed = false ∧ armOk = false then
    (false, { u with mission_status := .error, mission_phase := some .arm_error
                     last_mission_update := some now })
  else if autoOk = false then
    (false, { u with mission_status := .error, mission_phase := some .mode_auto_error
                     last_mission_update := some now })
  else
    (true, { u with mission_status := .running, mission_phase := some .in_progress
                    last_mission_update := some now })

/-- The padding `params = params + [0.0] * (7 - len(params))` (src/app.py:315-316). -/
def padParams (ps : List (Option ℚ)) : List (Option ℚ) :=
  ps ++ List.replicate (7 - ps.length) (some 0)

/-- The coordinate extraction of the `parse_qgc_plan` loop body
(src/app.py:322-332): `params[4]`, `params[5]` are the candidates, a pair
with either magnitude within `eps` of zero counts as "no coordinates". -/
def coordsOf (ps : List (Option ℚ)) : Option (ℚ × ℚ) :=
  match ps.getD 4 none, ps.getD 5 none with
  | some la, some lo =>
      if eps < pyAbs la ∧ eps < pyAbs lo then some (la, lo) else none
  | _, _ => none

/-- The altitude chosen by the `parse_qgc_plan` loop body
(src/app.py:331-339): `params[6]` when the coordinates were accepted,
falling back to the `Altitude` key of the item. -/
def parsedAlt (ps : List (Option ℚ)) (altKey : Option ℚ) : Option ℚ :=
  match coordsOf ps with
  | some _ =>
      match ps.getD 6 none with
      | some a => some a
      | none => altKey
  | none => altKey

/-- One iteration of the `parse_qgc_plan` item loop (src/app.py:307-359),
threading the `(items, waypoints, need_return_home)` accumulator. -/
def parseStep (acc : List ParsedItem × List (ℚ × ℚ) × Bool) (item : PItem) :
    List ParsedItem × List (ℚ × ℚ) × Bool :=
  if item.type = some "SimpleItem" then
    let cmd : Int := item.command.getD 0
    let ps := padParams item.params
    let co := coordsOf ps
    let pi : ParsedItem :=
      { seq := item.doJumpId.getD (acc.1.length + 1)
        command := cmd
        frame := item.frame.getD MAV_FRAME_GLOBAL_RELATIVE_ALT
        autoContinue := item.autoContinue.getD true
        params := ps
        lat := co.map Prod.fst
        lon := co.map Prod.snd
        alt := parsedAlt ps item.Altitude }
    match co with
    | some (la, lo) => (acc.1 ++ [pi], acc.2.1 ++ [(la, lo)], acc.2.2)
    | none =>
        (acc.1 ++ [pi], acc.2.1, if cmd = 20 ∨ cmd = 82 then true else acc.2.2)
  else acc

/-- The home position read at the top of `parse_qgc_plan`
(src/app.py:292-299): a list of at least two numbers, with no magnitude
check. -/
def homePair (plan : Plan) : Option (ℚ × ℚ) :=
  match plan.plannedHomePosition with
  | some l => if 2 ≤ l.length then some (l.getD 0 0, l.getD 1 0) else none
  | none => none

/-- The block after the `parse_qgc_plan` item loop (src/app.py:361-367): when
a home position was read, a coordless LAND/RTL was seen and the waypoint
list is non-empty, the home is appended unless the last waypoint already
coincides with it within `eps` on both axes. -/
def appendHomeIfNeeded (home : Option (ℚ × ℚ)) (wps : List (ℚ × ℚ)) (nrh : Bool) :
    List (ℚ × ℚ) :=
  match home with
  | some (hlat, hlon) =>
      if wps ≠ [] ∧ nrh = true then
        match wps.getLast? with
        | some (llat, llon) =>
            if eps < pyAbs (llat - hlat) ∨ eps < pyAbs (llon - hlon) then
              wps ++ [(hlat, hlon)]
            else wps
        | none => wps
      else wps
  | none => wps

/-- Model of `parse_qgc_plan` (src/app.py:275-369): the item loop followed by the
conditional append of the home position. -/
def parse_qgc_plan (plan : Plan) : List ParsedItem × List (ℚ × ℚ) :=
  let res := plan.items.foldl parseStep ([], [], false)
  (res.1, appendHomeIfNeeded (homePair plan) res.2.1 res.2.2)

/-- Model of `safe_float` (src/app.py:386-392) on numbers: `None` becomes
`0.0`, a number is itself. -/
def safe_float (v : Option ℚ) : ℚ := v.getD 0

/-- First key of a Python-style key list that is present and non-null. -/
def firstKey : List (Option ℚ) → Option ℚ
  | [] => none
  | some v :: _ => some v
  | none :: rest => firstKey rest

/-- The `["y", "lon", "longitude"]` lookup of `extract_lat_lon_alt`
(src/app.py:409-412). -/
def fallbackLon (item : PItem) : Option ℚ :=
  firstKey [item.y, item.lon, item.longitude]

/-- The `["Altitude", "alt", "z", "altitude"]` lookup of
`extract_lat_lon_alt` (src/app.py:413-416). -/
def fallbackAlt (item : PItem) : Option ℚ :=
  firstKey [item.Altitude, item.alt, item.z, item.altitude]

/-- The `["x", "lat", "latitude"]` loop of `extract_lat_lon_alt`
(src/app.py:404-418): each candidate latitude key is tried in order, and
the first one with magnitude above `1e-7` wins; the longitude and altitude
are then looked up by their own key lists with no magnitude check. -/
def fallbackLat (item : PItem) : List (Option ℚ) → Option ℚ × Option ℚ × Option ℚ
  | [] => (none, none, none)
  | none :: rest => fallbackLat item rest
  | some latv :: rest =>
      if eps < pyAbs latv then (some latv, fallbackLon item, fallbackAlt item)
      else fallbackLat item rest

/-- Model of `extract_lat_lon_alt` (src/app.py:394-420): with at least seven params,
`params[4:7]` is accepted as soon as the latitude is non-null and above
`1e-7` in magnitude — the longitude is passed through unvalidated;
otherwise the key-based fallback loop runs. -/
def extract_lat_lon_alt (item : PItem) : Option ℚ × Option ℚ × Option ℚ :=
  if 7 ≤ item.params.length then
    match item.params.getD 4 none with
    | some lv =>
        if eps < pyAbs lv then (some lv, item.params.getD 5 none, item.params.getD 6 none)
        else fallbackLat item [item.x, item.lat, item.latitude]
    | none => fallbackLat item [item.x, item.lat, item.latitude]
  else fallbackLat item [item.x, item.lat, item.latitude]

/-- Model of `get_frame_for_item` (src/app.py:422-424). -/
def get_frame_for_item (is_home : Bool) : Int :=
  if is_home then MAV_FRAME_GLOBAL else MAV_FRAME_GLOBAL_RELATIVE_ALT

/-- The failure modes of `upload_mission_to_autopilot` that the Python code
raises as exceptions (src/app.py:477-501). -/
inductive UploadErr
  | requestTimeout
  | seqOutOfRange (seq n : Nat)
  | missingCoords (seq : Nat)
  deriving DecidableEq

/-- One `MISSION_ITEM_INT` send (src/app.py:509-514). -/
structure SentItem where
  seq : Nat
  frame : Int
  command : Int
  current : Nat
  autocontinue : Nat
  p1 : ℚ
  p2 : ℚ
  p3 : ℚ
  p4 : ℚ
  x : Int
  y : Int
  z : ℚ
  deriving DecidableEq

/-- The encoding of one requested mission item inside the upload loop
(src/app.py:484-514): coordless commands get `x = y = 0`; an item with
both coordinates present gets the scaled integers; a `NAV_WAYPOINT (16)`
without them raises; anything else falls back to `(0, 0)` with a warning. -/
def encodeMissionItem (item : PItem) (hasHome : Bool) (req_seq : Nat) :
    Except UploadErr SentItem :=
  let cmd := item.command.getD 0
  let frame := get_frame_for_item (decide (req_seq = 0) && hasHome)
  let p1 := safe_float (item.params.getD 0 none)
  let p2 := safe_float (item.params.getD 1 none)
  let p3 := safe_float (item.params.getD 2 none)
  let p4 := safe_float (item.params.getD 3 none)
  let lla := extract_lat_lon_alt item
  let alt_val := safe_float lla.2.2
  if cmd ∈ COORDLESS_COMMANDS then
    .ok { seq := req_seq, frame := frame, command := cmd, current := 0, autocontinue := 1
          p1 := p1, p2 := p2, p3 := p3, p4 := p4, x := 0, y := 0, z := alt_val }
  else
    match lla.1, lla.2.1 with
    | some la, some lo =>
        .ok { seq := req_seq, frame := frame, command := cmd, current := 0, autocontinue := 1
              p1 := p1, p2 := p2, p3 := p3, p4 := p4
              x := pyRound (la * 10 ^ 7), y := pyRound (lo * 10 ^ 7), z := alt_val }
    | _, _ =>
        if cmd = 16 then .error (.missingCoords req_seq)
        else
          .ok { seq := req_seq, frame := frame, command := cmd, current := 0, autocontinue := 1
                p1 := p1, p2 := p2, p3 := p3, p4 := p4, x := 0, y := 0, z := alt_val }

/-- A `PItem` with every key absent, used only as the (unreachable) default
of an in-bounds list lookup. -/
def emptyPItem : PItem := {}

/-- The per-item loop of `upload_mission_to_autopilot` (src/app.py:471-515).
The first argument of the fuel counter is `len(mission_items)`; `reqs` is
the stream of answers to the blocking `recv_match` for
`MISSION_REQUEST_INT` / `MISSION_REQUEST` (with `none` for a `10 s`
timeout).  Timeouts and protocol violations are raised, mirroring the
`raise TimeoutError` / `raise ValueError` of the source. -/
def uploadLoop (items : List PItem) (hasHome : Bool) :
    Nat → List (Option Nat) → List SentItem → Except UploadErr (List SentItem)
  | 0, _, sent => .ok sent
  | _ + 1, [], _ => .error .requestTimeout
  | _ + 1, none :: _, _ => .error .requestTimeout
  | k + 1, some req_seq :: rest, sent =>
      if items.length ≤ req_seq then .error (.seqOutOfRange req_seq items.length)
      else
        match encodeMissionItem (items.getD req_seq emptyPItem) hasHome req_seq with
        | .error e => .error e
        | .ok si => uploadLoop items hasHome k rest (sent ++ [si])

/-- Model of `upload_mission_to_autopilot` (src/app.py:462-529): run the per-item
loop, then await `MISSION_ACK` for at most `TIMEOUT_ACK = 5 s` (`ack` is
the received ack type, `none` for no ack).  Every ack outcome — missing
ack, accepted ack, or any other ack type — returns `True`. -/
def upload_mission_to_autopilot (items : List PItem) (hasHome : Bool)
    (reqs : List (Option Nat)) (ack : Option Int) : Except UploadErr Bool :=
  match uploadLoop items hasHome items.length reqs [] with
  | .error e => .error e
  | .ok _ =>
      match ack with
      | none => .ok true
      | some t => if t = MAV_MISSION_ACCEPTED then .ok true else .ok true

/-- The home item prepended by `build_mission_items_from_plan`
(src/app.py:440-446). -/
def homeItem (lat_h lon_h alt_h : ℚ) : PItem :=
  { command := some 16, frame := some 0, autoContinue := some true
    params := [some 0, some 0, some 0, some 0, some lat_h, some lon_h, some alt_h]
    Altitude := some alt_h }

/-- Model of `build_mission_items_from_plan` (src/app.py:426-452) with
`include_home = True`: a `plannedHomePosition` of at least three numbers
whose latitude and longitude are both above `1e-7` in magnitude is
prepended as a synthetic `NAV_WAYPOINT`. -/
def build_mission_items_from_plan (plan : Plan) : List PItem × Option (ℚ × ℚ × ℚ) :=
  match plan.plannedHomePosition with
  | some ph =>
      if 3 ≤ ph.length then
        if eps < pyAbs (ph.getD 0 0) ∧ eps < pyAbs (ph.getD 1 0) then
          (homeItem (ph.getD 0 0) (ph.getD 1 0) (ph.getD 2 0) :: plan.items,
           some (ph.getD 0 0, ph.getD 1 0, ph.getD 2 0))
        else (plan.items, none)
      else (plan.items, none)
  | none => (plan.items, none)

/-- Model of `upload_and_start_mission_for_uav` (src/app.py:668-726) for a connected
UAV with a cached plan.  The first component of the result is `none` when an
exception escapes (the `finally` still releases `mission_comm_lock`), and
`some ok` for a normal return. -/
def upload_and_start (now : ℚ) (armed preModeOk armOk autoOk : Bool)
    (reqs : List (Option Nat)) (ack : Option Int) (plan : Plan) (u : UavRec) :
    Option Bool × UavRec :=
  let bi := build_mission_items_from_plan plan
  let u1 := { startMissionUpdate now { u with mission_comm_lock := true } with
              mission_total := bi.1.length }
  match upload_mission_to_autopilot bi.1 bi.2.isSome reqs ack with
  | .error _ => (none, { u1 with mission_comm_lock := false })
  | .ok false =>
      (none, { u1 with mission_status := .error, mission_phase := some .upload_error
                       last_mission_update := some now, mission_comm_lock := false })
  | .ok true =>
      let r := start_mission_auto now armed preModeOk armOk autoOk u1
      let u2 := if r.1 then r.2
                else { r.2 with mission_status := .error, last_mission_update := some now }
      (some r.1, { u2 with mission_comm_lock := false })

/-- Model of `mission_runner` (src/app.py:773-788): any exception escaping
`upload_and_start_mission_for_uav` is caught and recorded as
`mission_status = "error"`, `mission_phase = "exception"`. -/
def mission_runner (now : ℚ) (armed preModeOk armOk autoOk : Bool)
    (reqs : List (Option Nat)) (ack : Option Int) (plan : Plan) (u : UavRec) : UavRec :=
  match upload_and_start now armed preModeOk armOk autoOk reqs ack plan u with
  | (none, u1) =>
      { u1 with mission_status := .error, mission_phase := some .exception
                last_mission_update := some now }
  | (some true, u1) => u1
  | (some false, u1) =>
      { u1 with mission_status := .error, last_mission_update := some now }

/-- The `master.mode_mapping()[name]` lookup (src/app.py:545-548). -/
def lookupMode (modeMap : List (String × Nat)) (mode : String) : Option Nat :=
  match modeMap.find? (fun p => p.1 == mode) with
  | some p => some p.2
  | none => none

/-- The heartbeat-reading loop of `set_mode` (src/app.py:556-563): succeed at
the first heartbeat whose `custom_mode` equals the target, fail when the
window is exhausted.  `hbs` lists the heartbeats observed before the
timeout, `none` standing for an empty `recv_match` window. -/
def setModeWait (target : Nat) : List (Option Nat) → Bool
  | [] => false
  | h :: rest => if h = some target then true else setModeWait target rest

/-- Model of `set_mode` (src/app.py:543-563): unknown mode names fail immediately;
otherwise `SET_MODE(MAV_MODE_FLAG_CUSTOM_MODE_ENABLED, map[mode])` is sent
and the heartbeat loop decides the result. -/
def set_mode (modeMap : List (String × Nat)) (mode : String)
    (hbs : List (Option Nat)) : Bool :=
  match lookupMode modeMap mode with
  | none => false
  | some target => setModeWait target hbs

/-! ### Concrete inputs used by counterexamples and witnesses -/

/-- The first `SimpleItem` of scenario S3: command 22 with coordinates
`(55.7, 37.5)` and altitude 30. -/
def item22 : PItem :=
  { type := some "SimpleItem", command := some 22
    params := [some 0, some 0, some 0, some 0, some 55.7, some 37.5, some 30] }

/-- The second `SimpleItem` of scenario S3: a LAND (command 20) with all-zero
params, hence no coordinates. -/
def item20 : PItem :=
  { type := some "SimpleItem", command := some 20
    params := [some 0, some 0, some 0, some 0, some 0, some 0, some 0] }

/-- The S3 plan: the two items above plus `plannedHomePosition` equal to the
first waypoint. -/
def plan5 : Plan :=
  { items := [item22, item20], plannedHomePosition := some [55.7, 37.5, 0] }

/-- Like `plan5` but with a `(0, 0, 0)` home position. -/
def plan4 : Plan :=
  { items := [item22, item20], plannedHomePosition := some [0, 0, 0] }

/-- A freshly connected record, as built by `connect_to_uav` for port 14550. -/
def demoRecord : UavRec := initRecord 14550 0

/-- A record in the middle of a mission: running with three items. -/
def runningRecord : UavRec :=
  { demoRecord with mission_status := .running, mission_total := 3 }

/-- A `NAV_WAYPOINT` with a non-zero latitude and a null longitude. -/
def item16NoLon : PItem :=
  { type := some "SimpleItem", command := some 16
    params := [some 0, some 0, some 0, some 0, some 55.7, none, some 30] }

/-- A `NAV_WAYPOINT` with a non-zero latitude and a present-but-zero
longitude. -/
def item16ZeroLon : PItem :=
  { type := some "SimpleItem", command := some 16
    params := [some 0, some 0, some 0, some 0, some 55.7, some 0, some 30] }

/-! ### Helper lemmas -/

theorem setModeWait_iff (target : Nat) (hbs : List (Option Nat)) :
    setModeWait target hbs = true ↔ some target ∈ hbs := by
  induction hbs with
  | nil => simp [setModeWait]
  | cons h rest ih =>
      by_cases hh : h = some target
      · subst hh; simp [setModeWait]
      · simp only [setModeWait, if_neg hh, ih, List.mem_cons]
        constructor
        · exact Or.inr
        · rintro (h1 | h1)
          · exact absurd h1.symm hh
          · exact h1

theorem coordsOf_sound (ps : List (Option ℚ)) (la lo : ℚ)
    (h : coordsOf ps = some (la, lo)) : eps < pyAbs la ∧ eps < pyAbs lo := by
  unfold coordsOf at h
  split at h
  next a b =>
    split at h
    next hc =>
      injection h with h'
      rw [Prod.mk.injEq] at h'
      obtain ⟨rfl, rfl⟩ := h'
      exact hc
    next => exact absurd h (by simp)
  next => exact absurd h (by simp)

theorem parseStep_wp_sound (acc : List ParsedItem × List (ℚ × ℚ) × Bool) (item : PItem)
    (hw : ∀ p ∈ acc.2.1, eps < pyAbs p.1 ∧ eps < pyAbs p.2) :
    ∀ p ∈ (parseStep acc item).2.1, eps < pyAbs p.1 ∧ eps < pyAbs p.2 := by
  intro p hp
  unfold parseStep at hp
  by_cases ht : item.type = some "SimpleItem"
  · rw [if_pos ht] at hp
    simp only [] at hp
    cases hco : coordsOf (padParams item.params) with
    | none => rw [hco] at hp; exact hw p hp
    | some c =>
        obtain ⟨la, lo⟩ := c
        rw [hco] at hp
        simp only [List.mem_append, List.mem_singleton] at hp
        rcases hp with hp | hp
        · exact hw p hp
        · subst hp; exact coordsOf_sound _ la lo hco
  · rw [if_neg ht] at hp; exact hw p hp

theorem parseFold_wp_sound (items : List PItem)
    (acc : List ParsedItem × List (ℚ × ℚ) × Bool)
    (hw : ∀ p ∈ acc.2.1, eps < pyAbs p.1 ∧ eps < pyAbs p.2) :
    ∀ p ∈ (items.foldl parseStep acc).2.1, eps < pyAbs p.1 ∧ eps < pyAbs p.2 := by
  induction items generalizing acc with
  | nil => simpa using hw
  | cons it rest ih =>
      intro p hp
      rw [List.foldl_cons] at hp
      exact ih (parseStep acc it) (parseStep_wp_sound acc it hw) p hp

theorem appendHome_cases (home : Option (ℚ × ℚ)) (wps : List (ℚ × ℚ)) (nrh : Bool)
    (p : ℚ × ℚ) (hp : p ∈ appendHomeIfNeeded home wps nrh) : p ∈ wps ∨ home = some p := by
  unfold appendHomeIfNeeded at hp
  split at hp
  next hlat hlon =>
    split at hp
    · split at hp
      next llat llon =>
        split at hp
        · rcases List.mem_append.1 hp with hp1 | hp1
          · exact Or.inl hp1
          · rcases List.mem_singleton.1 hp1 with rfl
            exact Or.inr rfl
        · exact Or.inl hp
      next => exact Or.inl hp
    · exact Or.inl hp
  next => exact Or.inl hp

/-! ### Claims -/

/-- C3: once `stop_mission` has put a record into `stopped/stopped`, a later
`MISSION_CURRENT` (any `seq`, including `mission_total - 1`) leaves the
record completely unchanged, a later `STATUSTEXT` (any text) leaves it
completely unchanged, and a second `stop_mission` update leaves it in
`stopped/stopped`. -/
theorem c3_stop_is_sticky :
    ∀ (t1 t2 t3 : ℚ) (u : UavRec) (seq : Nat) (text : String),
      handleMissionCurrent t2 (stopMissionUpdate t1 u) seq = stopMissionUpdate t1 u ∧
      handleStatustext t2 (stopMissionUpdate t1 u) text = stopMissionUpdate t1 u ∧
      (stopMissionUpdate t3 (stopMissionUpdate t1 u)).mission_status = .stopped ∧
      (stopMissionUpdate t3 (stopMissionUpdate t1 u)).mission_phase = some .stopped := by
  intro t1 t2 t3 u seq text
  refine ⟨?_, ?_, rfl, rfl⟩
  · simp [handleMissionCurrent, stopMissionUpdate]
  · simp [handleStatustext, stopMissionUpdate]

/-- C8: `set_mode` returns success if and only if the mode name is in the
mode map and a heartbeat with `custom_mode` equal to the mapped value was
observed before the timeout (so an unknown mode name always fails). -/
theorem c8_set_mode_iff :
    ∀ (modeMap : List (String × Nat)) (mode : String) (hbs : List (Option Nat)),
      set_mode modeMap mode hbs = true ↔
        ∃ target, lookupMode modeMap mode = some target ∧ some target ∈ hbs := by
  intro m mode hbs
  unfold set_mode
  cases h : lookupMode m mode with
  | none => simp
  | some t =>
      rw [setModeWait_iff]
      constructor
      · intro hm; exact ⟨t, rfl, hm⟩
      · rintro ⟨t2, ht2, hm⟩
        obtain rfl : t = t2 := Option.some.inj ht2
        exact hm

/-- C9: one sweep of the heartbeat monitor leaves the link table untouched,
rewrites each record with `sweepRecord`, and `sweepRecord` changes nothing
but the `status` field: `connected` is preserved, every other field is
preserved, `status` becomes `offline` exactly when the last heartbeat is
more than 60 s old, and a non-stale record is left entirely unchanged. -/
theorem c9_heartbeat_sweep_frame :
    ∀ (now : ℚ) (st : GcsState) (u : UavRec),
      (check_heartbeats_sweep now st).links = st.links ∧
      (check_heartbeats_sweep now st).uavs
          = st.uavs.map (fun p => (p.1, sweepRecord now p.2)) ∧
      (sweepRecord now u).connected = u.connected ∧
      sweepRecord now u = { u with status := (sweepRecord now u).status } ∧
      (sweepRecord now u).status
          = (if heartbeatStale now u then .offline else u.status) ∧
      (heartbeatStale now u = false → sweepRecord now u = u) := by
  intro now st u
  refine ⟨rfl, rfl, ?_, ?_, ?_, ?_⟩ <;>
    by_cases hs : heartbeatStale now u <;>
      simp [sweepRecord, hs]

/-- C9 (witness): the frame theorem applied to a fresh record 10 s after its
heartbeat — not stale, so the sweep leaves it fully unchanged. -/
theorem c9_witness : sweepRecord 10 demoRecord = demoRecord :=
  (c9_heartbeat_sweep_frame 10 ⟨[], []⟩ demoRecord).2.2.2.2.2
    (by norm_num [heartbeatStale, demoRecord, initRecord, TIMEOUT_OFFLINE])

/-- C1 (counterexample): start a mission on a fresh record and let
`start_mission_auto` succeed.  The record is now `running` while
`mission_current_seq` is still the `-1` written by `start_mission`, so the
claimed invariant `0 ≤ mission_current_seq` for a running record is false. -/
theorem c1_counterexample :
    (start_mission_auto 1 true true true true (start_mission 0 demoRecord).2).2.mission_status
        = .running ∧
    (start_mission_auto 1 true true true true (start_mission 0 demoRecord).2).2.mission_current_seq
        = -1 ∧
    ¬(0 ≤ (start_mission_auto 1 true true true true
        (start_mission 0 demoRecord).2).2.mission_current_seq) := by
  refine ⟨?_, ?_, ?_⟩ <;>
    simp [start_mission_auto, start_mission, startMissionUpdate, demoRecord, initRecord]

/-- C1 (amended): `mission_progress` stays in `[0, 1]` across the
`MISSION_CURRENT` handler, `start_mission` and `start_mission_auto`; and
after the `MISSION_CURRENT` handler the bound
`0 ≤ mission_current_seq < mission_total` does hold provided the prior
status is not `stopped`, `mission_total` is positive and the received
sequence number is below `mission_total`.  (Immediately after
`start_mission_auto` the sequence may still be `-1`, per the
counterexample.) -/
theorem c1_amended :
    ∀ (now : ℚ) (u : UavRec) (seq : Nat) (armed pm am ao : Bool),
      (0 ≤ u.mission_progress → u.mission_progress ≤ 1 →
        0 ≤ (handleMissionCurrent now u seq).mission_progress ∧
          (handleMissionCurrent now u seq).mission_progress ≤ 1) ∧
      (0 ≤ u.mission_progress → u.mission_progress ≤ 1 →
        0 ≤ (start_mission now u).2.mission_progress ∧
          (start_mission now u).2.mission_progress ≤ 1) ∧
      (0 ≤ u.mission_progress → u.mission_progress ≤ 1 →
        0 ≤ (start_mission_auto now armed pm am ao u).2.mission_progress ∧
          (start_mission_auto now armed pm am ao u).2.mission_progress ≤ 1) ∧
      (u.mission_status ≠ .stopped → 0 < u.mission_total → seq < u.mission_total →
        0 ≤ (handleMissionCurrent now u seq).mission_current_seq ∧
          (handleMissionCurrent now u seq).mission_current_seq <
            ((handleMissionCurrent now u seq).mission_total : Int)) := by
  intro now u seq armed pm am ao
  refine ⟨?_, ?_, ?_, ?_⟩
  · intro h0 h1
    unfold handleMissionCurrent
    by_cases hs : u.mission_status = .stopped
    · rw [if_pos hs]; exact ⟨h0, h1⟩
    · rw [if_neg hs]
      simp only []
      split <;>
        · simp only []
          split
          · exact ⟨le_min zero_le_one (le_max_left 0 _), min_le_left 1 _⟩
          · norm_num
  · intro h0 h1
    unfold start_mission
    split
    · exact ⟨h0, h1⟩
    · norm_num [startMissionUpdate]
  · intro h0 h1
    unfold start_mission_auto
    split
    · exact ⟨h0, h1⟩
    · split
      · exact ⟨h0, h1⟩
      · split
        · exact ⟨h0, h1⟩
        · exact ⟨h0, h1⟩
  · intro hs ht hseq
    unfold handleMissionCurrent
    rw [if_neg hs]
    have hteff : effectiveTotal u = u.mission_total := by
      unfold effectiveTotal
      rw [if_pos (Nat.pos_iff_ne_zero.1 ht)]
    simp only [hteff]
    split <;>
      · refine ⟨Int.natCast_nonneg seq, ?_⟩
        show (seq : Int) < ((u.mission_total : Nat) : Int)
        exact_mod_cast hseq

/-- C1 (witness): the amended sequence bound, applied to a running record
with three mission items receiving `MISSION_CURRENT(seq = 1)`. -/
theorem c1_amended_witness :
    0 ≤ (handleMissionCurrent 2 runningRecord 1).mission_current_seq ∧
      (handleMissionCurrent 2 runningRecord 1).mission_current_seq <
        ((handleMissionCurrent 2 runningRecord 1).mission_total : Int) :=
  (c1_amended 2 runningRecord 1 true true true true).2.2.2
    (by decide) (by decide) (by decide)

/-- C7: for a registered UAV, `start_mission` rejects while `mission_status`
is `starting` or `running` (leaving the record unchanged) and otherwise
moves the record to `starting/uploading` with `mission_current_seq = -1`
and `mission_progress = 0`, scheduling the upload/start sequence (the
`.started` result). -/
theorem c7_start_mission :
    ∀ (now : ℚ) (u : UavRec),
      ((u.mission_status = .starting ∨ u.mission_status = .running) →
        start_mission now u = (.inProgress, u)) ∧
      (u.mission_status ≠ .starting → u.mission_status ≠ .running →
        start_mission now u =
          (.started,
           { u with mission_status := .starting, mission_phase := some .uploading
                    mission_current_seq := -1, mission_progress := 0
                    last_mission_update := some now })) := by
  intro now u
  constructor
  · intro h
    unfold start_mission
    rw [if_pos h]
  · intro h1 h2
    unfold start_mission startMissionUpdate
    rw [if_neg (by tauto)]

/-- C7 (witness): a freshly connected (idle) record is accepted and moved to
`starting/uploading` with the sequence and progress reset. -/
theorem c7_witness :
    start_mission 5 demoRecord =
      (.started,
       { demoRecord with mission_status := .starting, mission_phase := some .uploading
                         mission_current_seq := -1, mission_progress := 0
                         last_mission_update := some 5 }) :=
  (c7_start_mission 5 demoRecord).2 (by decide) (by decide)

/-- C4 (counterexample): parsing a plan whose `plannedHomePosition` is
`(0, 0, 0)` and whose items are a waypoint plus a coordless LAND appends the
home pair `(0, 0)` to `waypoints`, which satisfies neither disjunct of
`|lat| > 1e-7 ∨ |lon| > 1e-7`. -/
theorem c4_counterexample :
    ((0 : ℚ), (0 : ℚ)) ∈ (parse_qgc_plan plan4).2 ∧
      ¬(eps < pyAbs (0 : ℚ) ∨ eps < pyAbs (0 : ℚ)) := by
  constructor
  · norm_num [parse_qgc_plan, appendHomeIfNeeded, plan4, item22, item20, parseStep,
      padParams, coordsOf, parsedAlt, homePair, eps, pyAbs]
  · norm_num [eps, pyAbs]

/-- C4 (amended): every pair in the `waypoints` output either came from a
`SimpleItem` and then satisfies the strong form `|lat| > 1e-7 ∧ |lon| > 1e-7`,
or it is exactly the parsed `plannedHomePosition` pair — which is appended
without any magnitude check and may be `(0, 0)`. -/
theorem c4_amended :
    ∀ (plan : Plan) (p : ℚ × ℚ), p ∈ (parse_qgc_plan plan).2 →
      (eps < pyAbs p.1 ∧ eps < pyAbs p.2) ∨ homePair plan = some p := by
  intro plan p hp
  unfold parse_qgc_plan at hp
  simp only [] at hp
  rcases appendHome_cases _ _ _ p hp with h | h
  · exact Or.inl (parseFold_wp_sound plan.items ([], [], false) (by simp) p h)
  · exact Or.inr h

/-- C4 (witness): the amended statement applied to the S3 plan at its first
waypoint `(55.7, 37.5)`. -/
theorem c4_amended_witness :
    (eps < pyAbs ((55.7 : ℚ), (37.5 : ℚ)).1 ∧ eps < pyAbs ((55.7 : ℚ), (37.5 : ℚ)).2) ∨
      homePair plan5 = some (55.7, 37.5) :=
  c4_amended plan5 (55.7, 37.5)
    (by norm_num [parse_qgc_plan, appendHomeIfNeeded, plan5, item22, item20, parseStep,
        padParams, coordsOf, parsedAlt, homePair, eps, pyAbs])

/-- C5 (counterexample): on the S3 plan the parser does NOT produce the
claimed `[[55.7, 37.5], [55.70, 37.50]]` — the home coincides with the last
waypoint, so the `> 1e-7` difference check suppresses the append. -/
theorem c5_counterexample :
    (parse_qgc_plan plan5).2 ≠ [((55.7 : ℚ), (37.5 : ℚ)), ((55.7 : ℚ), (37.5 : ℚ))] := by
  norm_num [parse_qgc_plan, appendHomeIfNeeded, plan5, item22, item20, parseStep,
    padParams, coordsOf, parsedAlt, homePair, eps, pyAbs]

/-- C5 (amended): parsing the S3 plan yields `waypoints = [[55.7, 37.5]]`:
the coordless LAND does set `need_return_home`, but the home position is
not appended because it differs from the last waypoint by at most `1e-7`
on both axes. -/
theorem c5_amended :
    (parse_qgc_plan plan5).2 = [((55.7 : ℚ), (37.5 : ℚ))] ∧
      (plan5.items.foldl parseStep ([], [], false)).2.2 = true := by
  constructor <;>
    norm_num [parse_qgc_plan, appendHomeIfNeeded, plan5, item22, item20, parseStep,
      padParams, coordsOf, parsedAlt, homePair, eps, pyAbs]

/-- C2 (counterexample): run `mission_runner` on the S3 plan with no
`MISSION_REQUEST` ever arriving (a pure upload timeout, no transport
exception).  The record ends with `mission_phase = exception`, not the
claimed `upload_error`. -/
theorem c2_counterexample :
    (mission_runner 0 true true true true [] none plan5 demoRecord).mission_phase
        = some .exception ∧
      (mission_runner 0 true true true true [] none plan5 demoRecord).mission_phase
        ≠ some .upload_error := by
  have h : (mission_runner 0 true true true true [] none plan5 demoRecord).mission_phase
      = some .exception := by
    norm_num [mission_runner, upload_and_start, build_mission_items_from_plan, plan5,
      upload_mission_to_autopilot, uploadLoop, homeItem, item22, item20, eps, pyAbs,
      startMissionUpdate, demoRecord, initRecord]
  refine ⟨h, ?_⟩
  rw [h]
  decide

/-- C2 (amended): every failure inside the upload handshake — request
timeout, out-of-range request, `NAV_WAYPOINT` without coordinates — is
raised as an exception that `mission_runner` catches, ending with
`mission_status = error` and `mission_phase = exception`, exactly like a
transport exception; and `mission_phase = upload_error` is unreachable
because `upload_mission_to_autopilot` never returns `False`. -/
theorem c2_amended :
    ∀ (now : ℚ) (armed pm am ao : Bool) (reqs : List (Option Nat)) (ack : Option Int)
      (plan : Plan) (u : UavRec) (e : UploadErr),
      (upload_mission_to_autopilot (build_mission_items_from_plan plan).1
          (build_mission_items_from_plan plan).2.isSome reqs ack = .error e →
        (mission_runner now armed pm am ao reqs ack plan u).mission_status = .error ∧
          (mission_runner now armed pm am ao reqs ack plan u).mission_phase
            = some .exception) ∧
      upload_mission_to_autopilot (build_mission_items_from_plan plan).1
          (build_mission_items_from_plan plan).2.isSome reqs ack ≠ .ok false := by
  intro now armed pm am ao reqs ack plan u e
  constructor
  · intro h
    unfold mission_runner upload_and_start
    simp [h]
  · intro h
    unfold upload_mission_to_autopilot at h
    revert h
    cases hl : uploadLoop (build_mission_items_from_plan plan).1
        (build_mission_items_from_plan plan).2.isSome
        (build_mission_items_from_plan plan).1.length reqs [] with
    | error e2 => simp
    | ok s =>
        cases ack with
        | none => simp
        | some t => split <;> simp

/-- C2 (witness): the amended statement at the concrete timeout run of the
counterexample. -/
theorem c2_amended_witness :
    (mission_runner 0 true true true true [] none plan5 demoRecord).mission_status = .error ∧
      (mission_runner 0 true true true true [] none plan5 demoRecord).mission_phase
        = some .exception :=
  (c2_amended 0 true true true true [] none plan5 demoRecord .requestTimeout).1
    (by norm_num [upload_mission_to_autopilot, build_mission_items_from_plan, plan5,
        uploadLoop, homeItem, item22, item20, eps, pyAbs])

/-- C6: if the per-item loop sent all `n` `MISSION_ITEM_INT` messages, the
upload reports success whatever the final `MISSION_ACK` is: absent ack and
non-`MAV_MISSION_ACCEPTED` ack are both still success. -/
theorem c6_ack_optional :
    ∀ (items : List PItem) (hasHome : Bool) (reqs : List (Option Nat))
      (sent : List SentItem) (ack : Option Int),
      uploadLoop items hasHome items.length reqs [] = .ok sent →
      upload_mission_to_autopilot items hasHome reqs ack = .ok true := by
  intro items hasHome reqs sent ack h
  unfold upload_mission_to_autopilot
  rw [h]
  cases ack with
  | none => rfl
  | some t => by_cases ht : t = MAV_MISSION_ACCEPTED <;> simp [ht]

/-- C6 (witness): a one-item upload whose single request is answered and
whose ack arrives with type 13 (an error type ≠ `MAV_MISSION_ACCEPTED`)
still returns success. -/
theorem c6_witness :
    upload_mission_to_autopilot [item22] false [some 0] (some 13) = .ok true :=
  c6_ack_optional [item22] false [some 0]
    [{ seq := 0, frame := 3, command := 22, current := 0, autocontinue := 1
       p1 := 0, p2 := 0, p3 := 0, p4 := 0, x := 557000000, y := 375000000, z := 30 }]
    (some 13)
    (by norm_num [uploadLoop, item22, encodeMissionItem, extract_lat_lon_alt, fallbackLat,
        get_frame_for_item, safe_float, eps, pyAbs, pyRound, COORDLESS_COMMANDS,
        MAV_FRAME_GLOBAL_RELATIVE_ALT, emptyPItem])

/-- C10 (counterexample): a `NAV_WAYPOINT` whose latitude is non-zero but
whose longitude is null is NOT sent with `y = 0`: the upload-loop encoding
raises the missing-coordinates error, refuting the "or missing" half of
the claim. -/
theorem c10_counterexample :
    encodeMissionItem item16NoLon false 0 = .error (.missingCoords 0) := by
  norm_num [encodeMissionItem, item16NoLon, extract_lat_lon_alt, fallbackLat, safe_float,
    eps, pyAbs, COORDLESS_COMMANDS, get_frame_for_item]

/-- C10 (amended): `extract_lat_lon_alt` judges coordinate presence from the
latitude alone — whenever `params` has length ≥ 7 and `|params[4]| > 1e-7`
it returns the triple with the longitude passed through unvalidated; a
`NAV_WAYPOINT (16)` with non-zero latitude and a present-but-zero longitude
is therefore encoded and sent with `y = 0`; but a null longitude still
fails with the missing-coordinates error. -/
theorem c10_amended :
    ∀ (item : PItem) (la : ℚ) (s : Nat),
      (7 ≤ item.params.length → item.params.getD 4 none = some la → eps < pyAbs la →
        extract_lat_lon_alt item =
          (some la, item.params.getD 5 none, item.params.getD 6 none)) ∧
      (item.command.getD 0 = 16 → 7 ≤ item.params.length →
        item.params.getD 4 none = some la → eps < pyAbs la →
        item.params.getD 5 none = some 0 →
        encodeMissionItem item false s = .ok
          { seq := s, frame := MAV_FRAME_GLOBAL_RELATIVE_ALT, command := 16, current := 0
            autocontinue := 1
            p1 := safe_float (item.params.getD 0 none)
            p2 := safe_float (item.params.getD 1 none)
            p3 := safe_float (item.params.getD 2 none)
            p4 := safe_float (item.params.getD 3 none)
            x := pyRound (la * 10 ^ 7), y := 0
            z := safe_float (item.params.getD 6 none) }) ∧
      (item.command.getD 0 = 16 → 7 ≤ item.params.length →
        item.params.getD 4 none = some la → eps < pyAbs la →
        item.params.getD 5 none = none →
        encodeMissionItem item false s = .error (.missingCoords s)) := by
  intro item la s
  have hex : 7 ≤ item.params.length → item.params.getD 4 none = some la →
      eps < pyAbs la →
      extract_lat_lon_alt item =
        (some la, item.params.getD 5 none, item.params.getD 6 none) := by
    intro hlen h4 habs
    unfold extract_lat_lon_alt
    rw [if_pos hlen]
    simp only [h4, if_pos habs]
  refine ⟨hex, ?_, ?_⟩
  · intro hc hlen h4 habs h5
    unfold encodeMissionItem
    simp only [hex hlen h4 habs, h5, hc]
    norm_num [COORDLESS_COMMANDS, get_frame_for_item, pyRound]
  · intro hc hlen h4 habs h5
    unfold encodeMissionItem
    simp only [hex hlen h4 habs, h5, hc]
    norm_num [COORDLESS_COMMANDS]

/-- C10 (witness): the amended zero-longitude statement at a concrete
`NAV_WAYPOINT` with latitude 55.7 and longitude 0. -/
theorem c10_amended_witness :
    encodeMissionItem item16ZeroLon false 0 = .ok
      { seq := 0, frame := MAV_FRAME_GLOBAL_RELATIVE_ALT, command := 16, current := 0
        autocontinue := 1
        p1 := safe_float (item16ZeroLon.params.getD 0 none)
        p2 := safe_float (item16ZeroLon.params.getD 1 none)
        p3 := safe_float (item16ZeroLon.params.getD 2 none)
        p4 := safe_float (item16ZeroLon.params.getD 3 none)
        x := pyRound ((55.7 : ℚ) * 10 ^ 7), y := 0
        z := safe_float (item16ZeroLon.params.getD 6 none) } :=
  (c10_amended item16ZeroLon 55.7 0).2.1
    (by norm_num [item16ZeroLon]) (by norm_num [item16ZeroLon])
    (by norm_num [item16ZeroLon, List.getD]) (by norm_num [eps, pyAbs])
    (by norm_num [item16ZeroLon, List.getD])

end UavSystem
